import Mathlib

/-!
Shallow embedding of `src/server/middleware.js` from the converter-react
repository, together with proofs about its behaviour.

Strings from JavaScript are modelled as `List Char`.  The two external query
parameters (`req.query.__mode`, `req.query.__bootstrap`) are modelled as
`Option (List Char)` (absent key = `none`).  The Flux store, the action
dispatcher and the React renderer are external collaborators; they are
modelled by the contract the spec gives them (`bootstrap`, `takeSnapshot`,
`flush`, listener registration/removal, `renderToString`), with opaque
payloads kept as type parameters `α` (fetched conversions) and `ε` (errors).
-/

namespace Converter

/-- The sentinel query value disabling server-side rendering
(`req.query.__mode === "noss"`). -/
def noss : List Char := "noss".toList

/-- An incoming HTTP request, reduced to the two query keys the middleware
reads (`__mode` and `__bootstrap`); `none` models an absent key. -/
structure Request where
  __mode : Option (List Char)
  __bootstrap : Option (List Char)
deriving DecidableEq

/-- JavaScript single-character `String.prototype.split(":")`, transcribed to
`List Char`: `"".split(":") = [""]`, `"a:b:c".split(":") = ["a","b","c"]`,
`"a:".split(":") = ["a",""]`. -/
def splitOnColon : List Char → List (List Char)
  | [] => [[]]
  | c :: rest =>
    match splitOnColon rest with
    | [] => [[]]
    | s :: ss => if c = ':' then [] :: s :: ss else (c :: s) :: ss

/-- The parsed bootstrap instruction `{types, value}`; `value = none` models
JavaScript `undefined` (no second split part). -/
structure QueryBootstrap where
  types : List Char
  value : Option (List Char)
deriving DecidableEq

/-- Embedding of `_getQueryBootstrap` (middleware.js lines 9-24): read
`req.query.__bootstrap`; if falsy return null; split on `":"`; take
`parts[0]` as `types` and `parts[1]` as `value`; if `types` is falsy return
null, else return `{types, value}`. -/
def _getQueryBootstrap (req : Request) : Option QueryBootstrap :=
  match req.__bootstrap with
  | none => none
  | some bootstrap =>
    if bootstrap.isEmpty then none
    else
      let parts := splitOnColon bootstrap
      let types := parts.headD []
      let value := parts[1]?
      if types.isEmpty then none
      else some { types := types, value := value }

section FetchStrategy

variable (α ε : Type)

/-- The `ConvertStore` sub-state the fetch-first middleware bootstraps into
the singleton flux instance (middleware.js lines 75-81): the fetched
`conversions` payload plus the request's `types`/`value`. -/
structure ConvertStoreState where
  conversions : α
  types : List Char
  value : Option (List Char)
deriving DecidableEq

/-- The state of a flux store instance: `none` is the pristine (freshly
constructed or flushed) state, `some s` is a store bootstrapped with the
`ConvertStore` sub-state `s`.  `takeSnapshot` serialises exactly this state,
so a snapshot is modelled by the same type. -/
abbrev StoreState := Option (ConvertStoreState α)

/-- The markup produced by `ReactDOMServer.renderToString(new Component({flux}))`:
an opaque string determined by the flux state passed to the component. -/
structure Markup where
  fluxAtRender : StoreState α
deriving DecidableEq

/-- Embedding of the external render call: the markup records the store state
the component was rendered against. -/
def renderToString (flux : StoreState α) : Markup α := ⟨flux⟩

/-- The two `res.locals` fields this middleware writes (`bootstrapData`, the
store snapshot, and `bootstrapComponent`, the rendered markup); `none` means
the field was never written. -/
structure Locals (σ μ : Type) where
  bootstrapData : Option σ
  bootstrapComponent : Option μ
deriving DecidableEq

/-- `res.locals` with no field written. -/
def emptyLocals (σ μ : Type) : Locals σ μ := ⟨none, none⟩

/-- Settlement of the promise returned by `fetchConversions(types, value)`:
resolution with a conversions payload or rejection with an error. -/
inductive FetchResult where
  | success (conversions : α)
  | failure (err : ε)
deriving DecidableEq

/-- Observable primitive operations the fetch-first handler performs, in
program order: `flux.bootstrap`, `flux.takeSnapshot`, the render call,
`flux.flush`, and each call of the continuation `next` with its argument. -/
inductive FetchOp where
  | bootstrapOp (s : ConvertStoreState α)
  | takeSnapshotOp
  | renderOp
  | flushOp
  | nextOp (err : Option ε)
deriving DecidableEq

/-- Result of running the fetch-first handler on one request: the
`res.locals` fields written, the singleton store's state afterwards, and the
trace of primitive operations performed. -/
structure FetchOutcome where
  locals : Locals (StoreState α) (Markup α)
  store : StoreState α
  trace : List (FetchOp α ε)
deriving DecidableEq

/-- Embedding of the fetch-first ("flux singleton") middleware handler
(middleware.js lines 61-99).  `store` is the singleton flux state when the
request arrives; `result` is how the `fetchConversions` promise settles.
Gate order, store mutation order and the conditional render mirror the
source: skip on `__mode === "noss"`; skip on absent instruction; on fetch
success `bootstrap`, `takeSnapshot` into `res.locals.bootstrapData`, render
into `res.locals.bootstrapComponent` when `__mode !== "noss"`, `flush`, then
`next()`; on fetch failure just `next(err)`. -/
def fetch (req : Request) (store : StoreState α) (result : FetchResult α ε) :
    FetchOutcome α ε :=
  if req.__mode = some noss then
    ⟨emptyLocals _ _, store, [.nextOp none]⟩
  else
    match _getQueryBootstrap req with
    | none => ⟨emptyLocals _ _, store, [.nextOp none]⟩
    | some queryBootstrap =>
      match result with
      | .success conversions =>
        let bootstrapped : StoreState α :=
          some ⟨conversions, queryBootstrap.types, queryBootstrap.value⟩
        let renderPart : List (FetchOp α ε) :=
          if req.__mode = some noss then [] else [.renderOp]
        { locals :=
            { bootstrapData := some bootstrapped
              bootstrapComponent :=
                if req.__mode = some noss then none
                else some (renderToString α bootstrapped) }
          store := none
          trace := [.bootstrapOp ⟨conversions, queryBootstrap.types, queryBootstrap.value⟩,
                    .takeSnapshotOp] ++ renderPart ++ [.flushOp, .nextOp none] }
      | .failure err =>
        ⟨emptyLocals _ _, store, [.nextOp (some err)]⟩

/-- The arguments of the `next` calls in a fetch-strategy trace, in order. -/
def fetchNextCalls (tr : List (FetchOp α ε)) : List (Option ε) :=
  tr.filterMap fun op =>
    match op with
    | .nextOp e => some e
    | _ => none

end FetchStrategy

section ActionsStrategy

variable (α ε : Type)

/-- The two action-completion events the actions-strategy middleware listens
for: `actions.UPDATE_CONVERSIONS` (success) and `actions.CONVERSION_ERROR`
(failure). -/
inductive EventId where
  | UPDATE_CONVERSIONS
  | CONVERSION_ERROR
deriving DecidableEq

/-- The `ConvertActions` calls the handler fires (middleware.js lines
185-189), with their arguments. -/
inductive ActionCall where
  | setConversionTypes (types : List Char)
  | setConversionValue (value : Option (List Char))
  | fetchConversions (types : List Char) (value : Option (List Char))
deriving DecidableEq

/-- Modelled from the spec: the request-scoped flux store of the actions
strategy.  `src/client/flux` and the `ConvertStore` implementation are not
under `src/`, so the store is modelled from the spec's collaborator contract
(`bootstrap(snapshot)`, `takeSnapshot() -> snapshot`, `flush()`) and its
data-model sentence that the middleware writes one named sub-state holding
conversion data and the request's types/value: the two synchronous setter
actions record `types` and `value`, and a dispatched `UPDATE_CONVERSIONS`
records the conversions payload; `flush` resets every field. -/
structure ActionsFluxState where
  types : Option (List Char)
  value : Option (Option (List Char))
  conversions : Option α
deriving DecidableEq

/-- A freshly constructed (or flushed) request-scoped flux store. -/
def initialFlux : ActionsFluxState α := ⟨none, none, none⟩

/-- Observable primitive operations of the actions-strategy handler:
listener registration, action firing, `takeSnapshot`, the render call,
`removeAllActionListeners`, `flush`, and each `next` call with its
argument. -/
inductive ActOp where
  | addListenerOp (e : EventId)
  | fireActionOp (a : ActionCall)
  | takeSnapshotOp
  | renderOp
  | removeAllListenersOp
  | flushOp
  | nextOp (err : Option ε)
deriving DecidableEq

/-- The per-request state of the actions-strategy handler after its
synchronous body ran: the request (captured by the listener closures), the
currently registered action listeners, the request-scoped flux store, the
`res.locals` fields written so far, and the trace of operations performed. -/
structure ActionsCtx where
  req : Request
  listeners : List EventId
  flux : ActionsFluxState α
  locals : Locals (ActionsFluxState α) (ActionsFluxState α)
  trace : List (ActOp ε)
deriving DecidableEq

/-- Embedding of `_done` (middleware.js lines 147-151): remove every action
listener, flush the request-scoped store, then call `next(err)`. -/
def _done (st : ActionsCtx α ε) (err : Option ε) : ActionsCtx α ε :=
  { st with
      listeners := []
      flux := initialFlux α
      trace := st.trace ++ [.removeAllListenersOp, .flushOp, .nextOp err] }

/-- An asynchronous action-completion event delivered to this request's flux
dispatcher: `UPDATE_CONVERSIONS` carrying the fetched conversions, or
`CONVERSION_ERROR` carrying the error. -/
inductive Event where
  | updateConversions (conversions : α)
  | conversionError (err : ε)
deriving DecidableEq

/-- Delivery of one action-completion event.  The store always handles the
dispatch (recording the conversions payload); the registered listener, if
still present, then runs its callback: on `UPDATE_CONVERSIONS` the callback
of lines 161-173 (snapshot into `res.locals.bootstrapData`, render into
`res.locals.bootstrapComponent` when `__mode !== "noss"`, then `_done()`);
on `CONVERSION_ERROR` the listener is `_done` itself, receiving the error
(line 176). -/
def fireEvent (st : ActionsCtx α ε) (ev : Event α ε) : ActionsCtx α ε :=
  match ev with
  | .updateConversions conversions =>
    let st := { st with flux := { st.flux with conversions := some conversions } }
    if EventId.UPDATE_CONVERSIONS ∈ st.listeners then
      let st := { st with
                    locals := { st.locals with bootstrapData := some st.flux }
                    trace := st.trace ++ [.takeSnapshotOp] }
      let st :=
        if st.req.__mode = some noss then st
        else { st with
                 locals := { st.locals with bootstrapComponent := some st.flux }
                 trace := st.trace ++ [.renderOp] }
      _done α ε st none
    else st
  | .conversionError err =>
    if EventId.CONVERSION_ERROR ∈ st.listeners then _done α ε st (some err) else st

/-- The state after the handler returned on a request that failed a gate:
no listener registered, pristine store, nothing written, one `next()` call. -/
def passthroughCtx (req : Request) : ActionsCtx α ε :=
  ⟨req, [], initialFlux α, emptyLocals _ _, [.nextOp none]⟩

/-- Embedding of the synchronous body of the actions-strategy middleware
handler (middleware.js lines 130-190): skip on `__mode === "noss"`; skip on
absent instruction; otherwise create a fresh flux instance and listener set,
register the `UPDATE_CONVERSIONS` and `CONVERSION_ERROR` listeners, then
fire `setConversionTypes`, `setConversionValue` and `fetchConversions` in
that order.  Events are delivered afterwards via `fireEvent`. -/
def actions (req : Request) : ActionsCtx α ε :=
  if req.__mode = some noss then passthroughCtx α ε req
  else
    match _getQueryBootstrap req with
    | none => passthroughCtx α ε req
    | some queryBootstrap =>
      { req := req
        listeners := [.UPDATE_CONVERSIONS, .CONVERSION_ERROR]
        flux := { types := some queryBootstrap.types
                  value := some queryBootstrap.value
                  conversions := none }
        locals := emptyLocals _ _
        trace := [.addListenerOp .UPDATE_CONVERSIONS,
                  .addListenerOp .CONVERSION_ERROR,
                  .fireActionOp (.setConversionTypes queryBootstrap.types),
                  .fireActionOp (.setConversionValue queryBootstrap.value),
                  .fireActionOp (.fetchConversions queryBootstrap.types
                                   queryBootstrap.value)] }

/-- Deliver a list of events in order. -/
def runEvents (st : ActionsCtx α ε) (evs : List (Event α ε)) : ActionsCtx α ε :=
  evs.foldl (fireEvent α ε) st

/-- The arguments of the `next` calls in an actions-strategy trace, in
order. -/
def actNextCalls (tr : List (ActOp ε)) : List (Option ε) :=
  tr.filterMap fun op =>
    match op with
    | .nextOp e => some e
    | _ => none

/-- `true` iff every `next` call in the trace is strictly preceded by a
`removeAllActionListeners` and by a `flush`. -/
def teardownBeforeNext (sawRemove sawFlush : Bool) : List (ActOp ε) → Bool
  | [] => true
  | op :: rest =>
    match op with
    | .nextOp _ => sawRemove && sawFlush && teardownBeforeNext sawRemove sawFlush rest
    | .removeAllListenersOp => teardownBeforeNext true sawFlush rest
    | .flushOp => teardownBeforeNext sawRemove true rest
    | _ => teardownBeforeNext sawRemove sawFlush rest

end ActionsStrategy

/-! ### Helper lemmas about `splitOnColon` -/

theorem splitOnColon_ne_nil (l : List Char) : splitOnColon l ≠ [] := by
  induction l with
  | nil => simp [splitOnColon]
  | cons c rest ih =>
    simp only [splitOnColon]
    cases h : splitOnColon rest with
    | nil => simp
    | cons s ss =>
      by_cases hc : c = ':' <;> simp [hc]

theorem splitOnColon_no_colon (l : List Char) (h : ':' ∉ l) :
    splitOnColon l = [l] := by
  induction l with
  | nil => rfl
  | cons c rest ih =>
    have hc : c ≠ ':' := fun hEq => h (hEq ▸ List.mem_cons_self c rest)
    have hr : ':' ∉ rest := fun hm => h (List.mem_cons_of_mem c hm)
    simp only [splitOnColon, ih hr]
    simp [fun hEq => hc (hEq : c = ':')]

theorem splitOnColon_append (t r : List Char) (h : ':' ∉ t) :
    splitOnColon (t ++ ':' :: r) = t :: splitOnColon r := by
  induction t with
  | nil =>
    simp only [List.nil_append, splitOnColon]
    cases hs : splitOnColon r with
    | nil => exact absurd hs (splitOnColon_ne_nil r)
    | cons s ss => simp
  | cons c t' ih =>
    have hc : c ≠ ':' := fun hEq => h (hEq ▸ List.mem_cons_self c t')
    have ht : ':' ∉ t' := fun hm => h (List.mem_cons_of_mem c hm)
    simp only [List.cons_append, splitOnColon, List.append_eq]
    rw [ih ht]
    simp [fun hEq => hc (hEq : c = ':')]

/-- If the bootstrap value has the shape `types ++ ":" ++ rest` with a
colon-free `types`, the parser keeps `types` and takes as `value` the first
colon-separated segment of `rest` (not all of `rest`). -/
theorem getQueryBootstrap_colon (m : Option (List Char)) (t r : List Char)
    (ht : t ≠ []) (hc : ':' ∉ t) :
    _getQueryBootstrap ⟨m, some (t ++ ':' :: r)⟩ =
      some ⟨t, some ((splitOnColon r).headD [])⟩ := by
  cases hs : splitOnColon r with
  | nil => exact absurd hs (splitOnColon_ne_nil r)
  | cons s ss =>
    simp [_getQueryBootstrap, splitOnColon_append t r hc, hs, ht]

/-- A non-empty colon-free bootstrap value parses to itself as `types` with
an absent (`undefined`) `value`. -/
theorem getQueryBootstrap_no_colon (m : Option (List Char)) (s : List Char)
    (hne : s ≠ []) (hc : ':' ∉ s) :
    _getQueryBootstrap ⟨m, some s⟩ = some ⟨s, none⟩ := by
  simp [_getQueryBootstrap, splitOnColon_no_colon s hc, hne]

/-- An absent bootstrap key, or one whose first colon-separated segment is
empty, yields no instruction. -/
theorem getQueryBootstrap_eq_none (req : Request)
    (h : req.__bootstrap = none ∨
      ∃ b, req.__bootstrap = some b ∧ (splitOnColon b).headD [] = []) :
    _getQueryBootstrap req = none := by
  rcases h with h | ⟨b, hb, hh⟩
  · simp [_getQueryBootstrap, h]
  · by_cases hbe : b = []
    · simp [_getQueryBootstrap, hb, hbe]
    · cases hs : splitOnColon b with
      | nil => exact absurd hs (splitOnColon_ne_nil b)
      | cons s ss =>
        rw [hs] at hh
        simp only [List.headD_cons] at hh
        simp [_getQueryBootstrap, hb, hbe, hs, hh]

/-! ### Claim C3 -/

/-- C3 (counterexample): the claim says everything right of the first colon
becomes `value`; on the bootstrap value `"a:b:c"` the parser instead returns
`value = "b"` (the segment between the first and second colon), and
`"b" ≠ "b:c"`. -/
theorem C3_counterexample_extra_colon :
    _getQueryBootstrap ⟨none, some ("a:b:c".toList)⟩ =
      some ⟨"a".toList, some ("b".toList)⟩ ∧
    some ("b".toList) ≠ some ("b:c".toList) := by
  refine ⟨by decide, by decide⟩

/-- C3 (amended): the parser splits the bootstrap value on every colon;
`types` is the segment left of the first colon (non-empty, or no
instruction), and `value` is the segment between the first and the second
colon — only when the remainder after the first colon contains no further
colon does `value` equal the whole remainder. -/
theorem C3_parser_splits_on_colons (m : Option (List Char)) (t r : List Char)
    (ht : t ≠ []) (hc : ':' ∉ t) :
    _getQueryBootstrap ⟨m, some (t ++ ':' :: r)⟩ =
      some ⟨t, some ((splitOnColon r).headD [])⟩ ∧
    (':' ∉ r → _getQueryBootstrap ⟨m, some (t ++ ':' :: r)⟩ = some ⟨t, some r⟩) := by
  refine ⟨getQueryBootstrap_colon m t r ht hc, fun hr => ?_⟩
  rw [getQueryBootstrap_colon m t r ht hc, splitOnColon_no_colon r hr]
  rfl

/-- Witness for C3 (amended) at the bootstrap values `"a:b:c"` and
`"x:y"`. -/
theorem C3_parser_splits_on_colons_witness :
    _getQueryBootstrap ⟨none, some ("a".toList ++ ':' :: "b:c".toList)⟩ =
      some ⟨"a".toList, some ((splitOnColon ("b:c".toList)).headD [])⟩ ∧
    _getQueryBootstrap ⟨none, some ("x".toList ++ ':' :: "y".toList)⟩ =
      some ⟨"x".toList, some ("y".toList)⟩ :=
  ⟨(C3_parser_splits_on_colons none ("a".toList) ("b:c".toList)
      (by decide) (by decide)).1,
   (C3_parser_splits_on_colons none ("x".toList) ("y".toList)
      (by decide) (by decide)).2 (by decide)⟩

/-! ### Claim C9 -/

/-- C9: a non-empty, colon-free bootstrap value such as `"currency"` parses
to `types` being the whole string and `value` being absent (`undefined`,
modelled `none`), and both variants proceed with that absent value instead
of treating the instruction as absent: the actions handler registers its
listeners and fires all three actions with `value = none`, and the fetch
handler consumes the fetch result and bootstraps the store with
`value = none`. -/
theorem C9_no_colon_instruction (α ε : Type) (m : Option (List Char))
    (s : List Char) (store : StoreState α) (c : α)
    (hne : s ≠ []) (hc : ':' ∉ s) (hm : ¬ (m = some noss)) :
    _getQueryBootstrap ⟨m, some s⟩ = some ⟨s, none⟩ ∧
    (actions α ε ⟨m, some s⟩).trace =
      [.addListenerOp .UPDATE_CONVERSIONS, .addListenerOp .CONVERSION_ERROR,
       .fireActionOp (.setConversionTypes s),
       .fireActionOp (.setConversionValue none),
       .fireActionOp (.fetchConversions s none)] ∧
    (fetch α ε ⟨m, some s⟩ store (.success c)).locals.bootstrapData =
      some (some ⟨c, s, none⟩) := by
  have hq := getQueryBootstrap_no_colon m s hne hc
  refine ⟨hq, ?_, ?_⟩
  · simp [actions, hm, hq]
  · simp [fetch, hm, hq]

/-- Witness for C9 at the request `?__bootstrap=currency`. -/
theorem C9_no_colon_instruction_witness :
    _getQueryBootstrap ⟨none, some ("currency".toList)⟩ =
      some ⟨"currency".toList, none⟩ ∧
    (actions Nat Nat ⟨none, some ("currency".toList)⟩).trace =
      [.addListenerOp .UPDATE_CONVERSIONS, .addListenerOp .CONVERSION_ERROR,
       .fireActionOp (.setConversionTypes ("currency".toList)),
       .fireActionOp (.setConversionValue none),
       .fireActionOp (.fetchConversions ("currency".toList) none)] ∧
    (fetch Nat Nat ⟨none, some ("currency".toList)⟩ none
        (.success 7)).locals.bootstrapData =
      some (some ⟨7, "currency".toList, none⟩) :=
  C9_no_colon_instruction Nat Nat none ("currency".toList) none 7
    (by decide) (by decide) (by decide)

/-! ### Claim C4 -/

/-- C4: on a request without the bootstrap query key, or whose bootstrap
value has an empty `types` segment, both variants call `next` once with no
error argument and write neither `bootstrapData` nor `bootstrapComponent`;
the fetch variant's outcome is the same for every fetch result (the
continuation does not wait for the fetch), and the singleton store is left
untouched. -/
theorem C4_missing_instruction_passthrough (α ε : Type) (req : Request)
    (store : StoreState α) (result : FetchResult α ε)
    (h : req.__bootstrap = none ∨
      ∃ b, req.__bootstrap = some b ∧ (splitOnColon b).headD [] = []) :
    fetch α ε req store result = ⟨emptyLocals _ _, store, [.nextOp none]⟩ ∧
    actions α ε req = passthroughCtx α ε req := by
  have hq := getQueryBootstrap_eq_none req h
  by_cases hm : req.__mode = some noss
  · constructor
    · simp [fetch, hm]
    · simp [actions, hm]
  · constructor
    · simp [fetch, hm, hq]
    · simp [actions, hm, hq]

/-- Witness for C4 at the request `?__bootstrap=:100` (empty `types`
segment), with a successful fetch result. -/
theorem C4_missing_instruction_passthrough_witness :
    fetch Nat Nat ⟨none, some (":100".toList)⟩ none (.success 7) =
      ⟨emptyLocals _ _, none, [.nextOp none]⟩ ∧
    actions Nat Nat ⟨none, some (":100".toList)⟩ =
      passthroughCtx Nat Nat ⟨none, some (":100".toList)⟩ :=
  C4_missing_instruction_passthrough Nat Nat ⟨none, some (":100".toList)⟩
    none (.success 7) (Or.inr ⟨":100".toList, rfl, by decide⟩)

/-! ### Claim C2 -/

/-- C2: when the fetch promise rejects with error `e` on a request carrying
a well-formed instruction, the handler's whole trace is one `next(e)` call —
so the continuation runs exactly once with `e` as sole argument, no
snapshot/markup is written, and no `flush` is performed (the singleton store
is left exactly as it was). -/
theorem C2_fetch_failure_propagates (α ε : Type) (req : Request)
    (store : StoreState α) (e : ε) (qb : QueryBootstrap)
    (hm : ¬ (req.__mode = some noss)) (hq : _getQueryBootstrap req = some qb) :
    (fetch α ε req store (.failure e)).trace = [.nextOp (some e)] ∧
    (fetch α ε req store (.failure e)).locals = emptyLocals _ _ ∧
    (fetch α ε req store (.failure e)).store = store := by
  refine ⟨?_, ?_, ?_⟩ <;> simp [fetch, hm, hq]

/-- Witness for C2 at `?__bootstrap=currency:100` with a stale store and the
error `42`. -/
theorem C2_fetch_failure_propagates_witness :
    (fetch Nat Nat ⟨none, some ("currency:100".toList)⟩
        (some ⟨5, "old".toList, none⟩) (.failure 42)).trace =
      [.nextOp (some 42)] ∧
    (fetch Nat Nat ⟨none, some ("currency:100".toList)⟩
        (some ⟨5, "old".toList, none⟩) (.failure 42)).locals = emptyLocals _ _ ∧
    (fetch Nat Nat ⟨none, some ("currency:100".toList)⟩
        (some ⟨5, "old".toList, none⟩) (.failure 42)).store =
      some ⟨5, "old".toList, none⟩ :=
  C2_fetch_failure_propagates Nat Nat ⟨none, some ("currency:100".toList)⟩
    (some ⟨5, "old".toList, none⟩) 42 ⟨"currency".toList, some ("100".toList)⟩
    (by decide) (by decide)

/-! ### Claim C6 -/

/-- C6: two sequential, non-interleaved requests through the same
fetch-first middleware instance with the same instruction each snapshot only
their own payload: the first request leaves the singleton store flushed
(`none`), and each request's `bootstrapData` holds exactly its own
conversions with the instruction's types/value. -/
theorem C6_sequential_requests_isolated (α ε : Type) (req : Request)
    (qb : QueryBootstrap) (c1 c2 : α)
    (hm : ¬ (req.__mode = some noss)) (hq : _getQueryBootstrap req = some qb) :
    (fetch α ε req none (.success c1)).store = none ∧
    (fetch α ε req none (.success c1)).locals.bootstrapData =
      some (some ⟨c1, qb.types, qb.value⟩) ∧
    (fetch α ε req ((fetch α ε req none (.success c1)).store)
        (.success c2)).locals.bootstrapData =
      some (some ⟨c2, qb.types, qb.value⟩) := by
  refine ⟨?_, ?_, ?_⟩ <;> simp [fetch, hm, hq]

/-- Witness for C6 at `?__bootstrap=currency:100` with payloads `1` and
`2`. -/
theorem C6_sequential_requests_isolated_witness :
    (fetch Nat Nat ⟨none, some ("currency:100".toList)⟩ none
        (.success 1)).store = none ∧
    (fetch Nat Nat ⟨none, some ("currency:100".toList)⟩ none
        (.success 1)).locals.bootstrapData =
      some (some ⟨1, "currency".toList, some ("100".toList)⟩) ∧
    (fetch Nat Nat ⟨none, some ("currency:100".toList)⟩
        ((fetch Nat Nat ⟨none, some ("currency:100".toList)⟩ none
          (.success 1)).store)
        (.success 2)).locals.bootstrapData =
      some (some ⟨2, "currency".toList, some ("100".toList)⟩) :=
  C6_sequential_requests_isolated Nat Nat ⟨none, some ("currency:100".toList)⟩
    ⟨"currency".toList, some ("100".toList)⟩ 1 2 (by decide) (by decide)

/-! ### Claim C5 -/

/-- C5: on a request with a well-formed instruction whose fetch (fetch-first
variant) or action sequence (actions variant) succeeds, both variants write
a non-null snapshot and — server-side rendering being requested on every
such request — non-null markup; on a request where server-side rendering is
not requested (`__mode = "noss"`), neither variant ever writes markup. -/
theorem C5_success_writes_snapshot_and_markup (α ε : Type) (req : Request)
    (store : StoreState α) (c : α) (qb : QueryBootstrap)
    (hm : ¬ (req.__mode = some noss)) (hq : _getQueryBootstrap req = some qb)
    (reqNoSsr : Request) (storeN : StoreState α)
    (hN : reqNoSsr.__mode = some noss) :
    (fetch α ε req store (.success c)).locals.bootstrapData.isSome = true ∧
    (fetch α ε req store (.success c)).locals.bootstrapComponent.isSome = true ∧
    (fireEvent α ε (actions α ε req)
        (.updateConversions c)).locals.bootstrapData.isSome = true ∧
    (fireEvent α ε (actions α ε req)
        (.updateConversions c)).locals.bootstrapComponent.isSome = true ∧
    (fetch α ε reqNoSsr storeN (.success c)).locals.bootstrapComponent = none ∧
    (fireEvent α ε (actions α ε reqNoSsr)
        (.updateConversions c)).locals.bootstrapComponent = none := by
  refine ⟨?_, ?_, ?_, ?_, ?_, ?_⟩ <;>
    simp [fetch, actions, fireEvent, _done, passthroughCtx, emptyLocals, hm, hq, hN]

/-- Witness for C5 at `?__bootstrap=currency:100` (SSR requested) and at a
`?__mode=noss` request (SSR not requested). -/
theorem C5_success_writes_snapshot_and_markup_witness :
    (fetch Nat Nat ⟨none, some ("currency:100".toList)⟩ none
        (.success 7)).locals.bootstrapData.isSome = true ∧
    (fetch Nat Nat ⟨none, some ("currency:100".toList)⟩ none
        (.success 7)).locals.bootstrapComponent.isSome = true ∧
    (fireEvent Nat Nat (actions Nat Nat ⟨none, some ("currency:100".toList)⟩)
        (.updateConversions 7)).locals.bootstrapData.isSome = true ∧
    (fireEvent Nat Nat (actions Nat Nat ⟨none, some ("currency:100".toList)⟩)
        (.updateConversions 7)).locals.bootstrapComponent.isSome = true ∧
    (fetch Nat Nat ⟨some noss, some ("currency:100".toList)⟩ none
        (.success 7)).locals.bootstrapComponent = none ∧
    (fireEvent Nat Nat (actions Nat Nat ⟨some noss, some ("currency:100".toList)⟩)
        (.updateConversions 7)).locals.bootstrapComponent = none :=
  C5_success_writes_snapshot_and_markup Nat Nat
    ⟨none, some ("currency:100".toList)⟩ none 7
    ⟨"currency".toList, some ("100".toList)⟩ (by decide) (by decide)
    ⟨some noss, some ("currency:100".toList)⟩ none (by decide)

/-! ### Claim C7 -/

/-- C7: on a request passing both gates, the actions-strategy handler first
registers the `UPDATE_CONVERSIONS` and `CONVERSION_ERROR` listeners and then
fires exactly three actions in order: `setConversionTypes`,
`setConversionValue` (synchronous), then `fetchConversions`
(asynchronous). -/
theorem C7_listeners_then_actions_in_order (α ε : Type) (req : Request)
    (qb : QueryBootstrap)
    (hm : ¬ (req.__mode = some noss)) (hq : _getQueryBootstrap req = some qb) :
    (actions α ε req).listeners = [.UPDATE_CONVERSIONS, .CONVERSION_ERROR] ∧
    (actions α ε req).trace =
      [.addListenerOp .UPDATE_CONVERSIONS, .addListenerOp .CONVERSION_ERROR,
       .fireActionOp (.setConversionTypes qb.types),
       .fireActionOp (.setConversionValue qb.value),
       .fireActionOp (.fetchConversions qb.types qb.value)] := by
  constructor <;> simp [actions, hm, hq]

/-- Witness for C7 at `?__bootstrap=currency:100`. -/
theorem C7_listeners_then_actions_in_order_witness :
    (actions Nat Nat ⟨none, some ("currency:100".toList)⟩).listeners =
      [.UPDATE_CONVERSIONS, .CONVERSION_ERROR] ∧
    (actions Nat Nat ⟨none, some ("currency:100".toList)⟩).trace =
      [.addListenerOp .UPDATE_CONVERSIONS, .addListenerOp .CONVERSION_ERROR,
       .fireActionOp (.setConversionTypes ("currency".toList)),
       .fireActionOp (.setConversionValue (some ("100".toList))),
       .fireActionOp (.fetchConversions ("currency".toList)
                        (some ("100".toList)))] :=
  C7_listeners_then_actions_in_order Nat Nat
    ⟨none, some ("currency:100".toList)⟩
    ⟨"currency".toList, some ("100".toList)⟩ (by decide) (by decide)

/-! ### Claim C1 -/

/-- C1: on a gated request, after either completion event fires once, every
action listener is removed and exactly one `next` call is in the trace; a
second event delivery (either kind) leaves the trace — hence the set of
teardown operations and `next` calls — and the `res.locals` fields
unchanged. -/
theorem C1_teardown_exactly_once (α ε : Type) (req : Request)
    (qb : QueryBootstrap)
    (hm : ¬ (req.__mode = some noss)) (hq : _getQueryBootstrap req = some qb)
    (ev1 ev2 : Event α ε) :
    (fireEvent α ε (actions α ε req) ev1).listeners = [] ∧
    (actNextCalls ε (fireEvent α ε (actions α ε req) ev1).trace).length = 1 ∧
    (fireEvent α ε (fireEvent α ε (actions α ε req) ev1) ev2).trace =
      (fireEvent α ε (actions α ε req) ev1).trace ∧
    (fireEvent α ε (fireEvent α ε (actions α ε req) ev1) ev2).locals =
      (fireEvent α ε (actions α ε req) ev1).locals := by
  cases ev1 <;> cases ev2 <;>
    simp [actions, fireEvent, _done, actNextCalls, hm, hq]

/-- Witness for C1 at `?__bootstrap=currency:100`: the success event fires
first, then the error event is delivered late. -/
theorem C1_teardown_exactly_once_witness :
    (fireEvent Nat Nat (actions Nat Nat ⟨none, some ("currency:100".toList)⟩)
        (.updateConversions 7)).listeners = [] ∧
    (actNextCalls Nat
      (fireEvent Nat Nat (actions Nat Nat ⟨none, some ("currency:100".toList)⟩)
        (.updateConversions 7)).trace).length = 1 ∧
    (fireEvent Nat Nat
        (fireEvent Nat Nat (actions Nat Nat ⟨none, some ("currency:100".toList)⟩)
          (.updateConversions 7)) (.conversionError 3)).trace =
      (fireEvent Nat Nat (actions Nat Nat ⟨none, some ("currency:100".toList)⟩)
        (.updateConversions 7)).trace ∧
    (fireEvent Nat Nat
        (fireEvent Nat Nat (actions Nat Nat ⟨none, some ("currency:100".toList)⟩)
          (.updateConversions 7)) (.conversionError 3)).locals =
      (fireEvent Nat Nat (actions Nat Nat ⟨none, some ("currency:100".toList)⟩)
        (.updateConversions 7)).locals :=
  C1_teardown_exactly_once Nat Nat ⟨none, some ("currency:100".toList)⟩
    ⟨"currency".toList, some ("100".toList)⟩ (by decide) (by decide)
    (.updateConversions 7) (.conversionError 3)

/-! ### Claim C10 -/

/-- C10: on a gated request, whichever completion event terminates the
request, every `next` call in the resulting trace is strictly preceded by a
`removeAllActionListeners` and by a `flush`, the continuation has run
exactly once, and afterwards no listener is registered and the
request-scoped store is back in its pristine state. -/
theorem C10_teardown_before_continuation (α ε : Type) (req : Request)
    (qb : QueryBootstrap)
    (hm : ¬ (req.__mode = some noss)) (hq : _getQueryBootstrap req = some qb)
    (ev : Event α ε) :
    teardownBeforeNext ε false false
      (fireEvent α ε (actions α ε req) ev).trace = true ∧
    (actNextCalls ε (fireEvent α ε (actions α ε req) ev).trace).length = 1 ∧
    (fireEvent α ε (actions α ε req) ev).listeners = [] ∧
    (fireEvent α ε (actions α ε req) ev).flux = initialFlux α := by
  cases ev <;>
    simp [actions, fireEvent, _done, actNextCalls, teardownBeforeNext, hm, hq]

/-- Witness for C10 at `?__bootstrap=currency:100` with the error event. -/
theorem C10_teardown_before_continuation_witness :
    teardownBeforeNext Nat false false
      (fireEvent Nat Nat (actions Nat Nat ⟨none, some ("currency:100".toList)⟩)
        (.conversionError 3)).trace = true ∧
    (actNextCalls Nat
      (fireEvent Nat Nat (actions Nat Nat ⟨none, some ("currency:100".toList)⟩)
        (.conversionError 3)).trace).length = 1 ∧
    (fireEvent Nat Nat (actions Nat Nat ⟨none, some ("currency:100".toList)⟩)
        (.conversionError 3)).listeners = [] ∧
    (fireEvent Nat Nat (actions Nat Nat ⟨none, some ("currency:100".toList)⟩)
        (.conversionError 3)).flux = initialFlux Nat :=
  C10_teardown_before_continuation Nat Nat
    ⟨none, some ("currency:100".toList)⟩
    ⟨"currency".toList, some ("100".toList)⟩ (by decide) (by decide)
    (.conversionError 3)

/-! ### Claim C8 -/

/-- Invariant: whenever `bootstrapData` has been written, so has
`bootstrapComponent`. -/
def localsRenderClosed {σ μ : Type} (l : Locals σ μ) : Prop :=
  l.bootstrapData = none ∨ l.bootstrapComponent.isSome = true

/-- The actions handler never touches the request it closes over. -/
theorem actions_req (α ε : Type) (req : Request) :
    (actions α ε req).req = req := by
  by_cases hm : req.__mode = some noss
  · simp [actions, hm, passthroughCtx]
  · cases hq : _getQueryBootstrap req <;> simp [actions, hm, hq, passthroughCtx]

/-- The synchronous body of the actions handler writes no `res.locals`
field. -/
theorem actions_locals_empty (α ε : Type) (req : Request) :
    (actions α ε req).locals = emptyLocals _ _ := by
  by_cases hm : req.__mode = some noss
  · simp [actions, hm, passthroughCtx]
  · cases hq : _getQueryBootstrap req <;> simp [actions, hm, hq, passthroughCtx]

/-- A `?__mode=noss` request registers no listener. -/
theorem actions_noss_listeners (α ε : Type) (req : Request)
    (h : req.__mode = some noss) : (actions α ε req).listeners = [] := by
  simp [actions, h, passthroughCtx]

/-- One event delivery preserves the render-closure invariant together with
the fact that a no-SSR request has no listeners. -/
theorem fireEvent_renderClosed (α ε : Type) (st : ActionsCtx α ε)
    (ev : Event α ε) (h1 : localsRenderClosed st.locals)
    (h2 : st.req.__mode = some noss → st.listeners = []) :
    localsRenderClosed (fireEvent α ε st ev).locals ∧
    ((fireEvent α ε st ev).req.__mode = some noss →
      (fireEvent α ε st ev).listeners = []) := by
  cases ev with
  | updateConversions c =>
    by_cases hmem : EventId.UPDATE_CONVERSIONS ∈ st.listeners
    · by_cases hn : st.req.__mode = some noss
      · rw [h2 hn] at hmem
        simp at hmem
      · constructor
        · right
          simp [fireEvent, hmem, hn, _done]
        · intro hnoss
          simp [fireEvent, hmem, hn, _done]
    · constructor
      · simpa [fireEvent, hmem] using h1
      · intro hnoss
        simp only [fireEvent, hmem, if_false] at hnoss ⊢
        exact h2 hnoss
  | conversionError e =>
    by_cases hmem : EventId.CONVERSION_ERROR ∈ st.listeners
    · constructor
      · simpa [fireEvent, hmem, _done] using h1
      · intro hnoss
        simp [fireEvent, hmem, _done]
    · constructor
      · simpa [fireEvent, hmem] using h1
      · intro hnoss
        simp only [fireEvent, hmem, if_false] at hnoss ⊢
        exact h2 hnoss

/-- The render-closure invariant holds along any sequence of event
deliveries. -/
theorem runEvents_renderClosed (α ε : Type) (evs : List (Event α ε)) :
    ∀ st : ActionsCtx α ε, localsRenderClosed st.locals →
      (st.req.__mode = some noss → st.listeners = []) →
      localsRenderClosed (runEvents α ε st evs).locals := by
  induction evs with
  | nil =>
    intro st h1 h2
    simpa [runEvents] using h1
  | cons ev evs ih =>
    intro st h1 h2
    have h := fireEvent_renderClosed α ε st ev h1 h2
    exact ih (fireEvent α ε st ev) h.1 h.2

/-- C8: the inner server-side-rendering check can never fail on a success
path, so in both variants the snapshot field is only ever written together
with the markup field: for every request, fetch result and sequence of
delivered events, either `bootstrapData` was never written or
`bootstrapComponent` was written. -/
theorem C8_snapshot_implies_markup (α ε : Type) (req : Request)
    (store : StoreState α) (result : FetchResult α ε) (req2 : Request)
    (evs : List (Event α ε)) :
    ((fetch α ε req store result).locals.bootstrapData = none ∨
      (fetch α ε req store result).locals.bootstrapComponent.isSome = true) ∧
    ((runEvents α ε (actions α ε req2) evs).locals.bootstrapData = none ∨
      (runEvents α ε (actions α ε req2) evs).locals.bootstrapComponent.isSome
        = true) := by
  constructor
  · by_cases hm : req.__mode = some noss
    · left
      simp [fetch, hm, emptyLocals]
    · cases hq : _getQueryBootstrap req with
      | none =>
        left
        simp [fetch, hm, hq, emptyLocals]
      | some qb =>
        cases result with
        | success c =>
          right
          simp [fetch, hm, hq]
        | failure e =>
          left
          simp [fetch, hm, hq, emptyLocals]
  · apply runEvents_renderClosed
    · rw [actions_locals_empty]
      left
      rfl
    · rw [actions_req]
      exact actions_noss_listeners α ε req2

/-- Witness for C8 at `?__bootstrap=currency:100` with a successful fetch
and a single success event. -/
theorem C8_snapshot_implies_markup_witness :
    ((fetch Nat Nat ⟨none, some ("currency:100".toList)⟩ none
        (.success 7)).locals.bootstrapData = none ∨
      (fetch Nat Nat ⟨none, some ("currency:100".toList)⟩ none
        (.success 7)).locals.bootstrapComponent.isSome = true) ∧
    ((runEvents Nat Nat (actions Nat Nat ⟨none, some ("currency:100".toList)⟩)
        [.updateConversions 7]).locals.bootstrapData = none ∨
      (runEvents Nat Nat (actions Nat Nat ⟨none, some ("currency:100".toList)⟩)
        [.updateConversions 7]).locals.bootstrapComponent.isSome = true) :=
  C8_snapshot_implies_markup Nat Nat ⟨none, some ("currency:100".toList)⟩
    none (.success 7) ⟨none, some ("currency:100".toList)⟩
    [.updateConversions 7]

end Converter
